import Mathlib

/-!
Verification of the Prophecy resolution-and-settlement orchestrator
(`src/agent/graph.ts`, `src/agent/ipfs.ts`, `src/agent/reconsideration.ts`
and the Solana agent utilities) against its natural-language specification.

The TypeScript code is shallowly embedded: every external effect of a node
(generation-service calls, IPFS pin calls, ledger calls, sleeps) is made an
explicit parameter or an entry of an effect trace, and the pure control flow
of each function is translated statement by statement.
-/

namespace Prophecy

/-! ## Agent state and the Judge node (graph.ts) -/

/-- Routing target returned by the decision router `shouldContinue`. -/
inductive Route where
  | researcher
  | executor
deriving DecidableEq, Repr

/-- The LangGraph `AgentState` channels relevant to the workflow control flow
(graph.ts lines 142-155).  `decision` starts as `null` (here `none`) and is
set by the Judge node to an arbitrary string produced from the model output. -/
structure AgentState where
  question : String
  marketId : String
  marketPda : String
  facts : List String
  factConfidences : List Nat
  decision : Option String
  reasoning : String
  iterations : Nat
deriving DecidableEq, Repr

/-- The initial state with which the server invokes the compiled graph
(graph.ts lines 669-682 and 1005-1018): `iterations = 0`, `decision = null`. -/
def initialAgentState (question marketId marketPda : String) : AgentState :=
  { question := question
    marketId := marketId
    marketPda := marketPda
    facts := []
    factConfidences := []
    decision := none
    reasoning := ""
    iterations := 0 }

/-- Outcome of the Judge node's generation step: either the whole
`generateContent` / `JSON.parse` pipeline threw, or it produced a parsed
judgment object whose `decision` field may be absent. -/
inductive JudgeGen where
  | genFailure
  | parsed (decisionField : Option String) (reasoning : String)
deriving DecidableEq, Repr

/-- `String.prototype.toUpperCase` as applied to the model-output fields
(character-wise uppercasing; the fields of interest are ASCII). -/
def jsToUpper (s : String) : String :=
  ⟨s.data.map Char.toUpper⟩

/-- The decision computed by the Judge node from the parsed judgment,
embedding `judgment.decision?.toUpperCase() || 'UNCERTAIN'` (graph.ts
line 303): a missing field or an empty string falls back to `UNCERTAIN`,
any other string is uppercased and returned verbatim. -/
def decisionOfField : Option String → String
  | none => "UNCERTAIN"
  | some s => if jsToUpper s = "" then "UNCERTAIN" else jsToUpper s

/-- The Judge node (graph.ts lines 260-344).  On generation or parse failure
it returns decision `UNCERTAIN` with a fixed error reasoning; in both branches
it increments the iteration counter by exactly one. -/
def judgeNode (state : AgentState) (g : JudgeGen) : AgentState :=
  match g with
  | JudgeGen.genFailure =>
      { state with
        decision := some "UNCERTAIN"
        reasoning := "Error in judgment process"
        iterations := state.iterations + 1 }
  | JudgeGen.parsed d r =>
      { state with
        decision := some (decisionOfField d)
        reasoning := r
        iterations := state.iterations + 1 }

/-- The decision router (graph.ts lines 521-532): back to the Researcher
exactly when the decision is `UNCERTAIN` and fewer than 3 iterations have
run, otherwise on to the Executor. -/
def shouldContinue (state : AgentState) : Route :=
  if state.decision = some "UNCERTAIN" ∧ state.iterations < 3 then
    Route.researcher
  else
    Route.executor

/-- State after `n` Research-Judge passes, where `gens k` is the generation
outcome observed by the Judge on its `k`-th pass.  (The Researcher node does
not touch `decision` or `iterations`, so only Judge passes matter for
routing.) -/
def stateAfterPasses (gens : Nat → JudgeGen) (s0 : AgentState) : Nat → AgentState
  | 0 => s0
  | n + 1 => judgeNode (stateAfterPasses gens s0 n) (gens n)

theorem iterations_judgeNode (s : AgentState) (g : JudgeGen) :
    (judgeNode s g).iterations = s.iterations + 1 := by
  cases g <;> rfl

theorem iterations_stateAfterPasses (gens : Nat → JudgeGen) (s0 : AgentState) :
    ∀ n, (stateAfterPasses gens s0 n).iterations = s0.iterations + n
  | 0 => rfl
  | n + 1 => by
      simp [stateAfterPasses, iterations_judgeNode, iterations_stateAfterPasses gens s0 n,
        Nat.add_assoc]

/-- Claim C1: the router sends the workflow from Judge back to Research iff
the decision is `UNCERTAIN` and the iteration count is strictly below 3, and
otherwise to the Executor; each Judge pass increments the iteration count by
exactly 1; hence, starting from the server's initial state, after 3 Judge
passes the router yields the Executor regardless of the decisions, so every
run reaches Settle after at most 3 Judge passes. -/
theorem judge_router_iteration_cap (gens : Nat → JudgeGen)
    (q mid mpda : String) :
    (∀ s : AgentState,
        shouldContinue s = Route.researcher ↔
          (s.decision = some "UNCERTAIN" ∧ s.iterations < 3)) ∧
    (∀ (s : AgentState) (g : JudgeGen),
        (judgeNode s g).iterations = s.iterations + 1) ∧
    shouldContinue (stateAfterPasses gens (initialAgentState q mid mpda) 3) =
      Route.executor := by
  refine ⟨fun s => ?_, iterations_judgeNode, ?_⟩
  · unfold shouldContinue
    split
    · simp_all
    · simp_all
  · have h := iterations_stateAfterPasses gens (initialAgentState q mid mpda) 3
    unfold shouldContinue
    rw [h]
    simp [initialAgentState]

/-! ## Stakes and reward distribution (solana agent utilities) -/

/-- A parsed `CredStake` account (solana agent, `getCredStakesForMarket`
parsing).  Pubkeys are abstracted as naturals. -/
structure CredStake where
  user : Nat
  market : Nat
  amount : Nat
  direction : Bool
  timestamp : Int
  bump : Nat
deriving DecidableEq, Repr

/-- The result record reported by `distributeAllRewards`. -/
structure DistResult where
  distributed : Nat
  failed : Nat
  total : Nat
deriving DecidableEq, Repr

/-- One entry of the trace of external calls made by the Executor node and
the reward-distribution loop. -/
inductive ExecEffect where
  | pinTranscriptCall
  | pinMetadataCall
  | resolveCall (outcome : Nat)
  | distributeCall
  | disburseCall (user : Nat) (amount : Nat)
  | sleepCall (ms : Nat)
deriving DecidableEq, Repr

/-- `getCredStakesForMarket` (solana agent): the whole query-and-parse body
sits in a `try` block whose `catch` returns the empty list, so a throwing
query is indistinguishable from a market with no stakes. -/
def getCredStakesForMarket (query : Except String (List CredStake)) :
    List CredStake :=
  match query with
  | Except.ok stakes => stakes
  | Except.error _ => []

/-- The winning-stake filter of `distributeAllRewards`:
`userBetYes === yesWon` where `yesWon = (outcome === 1)`. -/
def winningStakes (stakes : List CredStake) (outcome : Nat) : List CredStake :=
  stakes.filter fun stake => stake.direction == decide (outcome = 1)

/-- The sequential disbursement loop of `distributeAllRewards`: for each
winner, one `distributeRewardToWinner` call for `stake.amount * 2`, a
success/failure count update, then a fixed 500 ms sleep.  `ok u` tells
whether the ledger call for user `u` succeeds.  Returns
(distributed, failed, effect trace). -/
def distLoop (ok : Nat → Bool) : List CredStake → Nat × Nat × List ExecEffect
  | [] => (0, 0, [])
  | stake :: rest =>
      let rewardAmount := stake.amount * 2
      let r := distLoop ok rest
      if ok stake.user then
        (r.1 + 1, r.2.1,
          ExecEffect.disburseCall stake.user rewardAmount ::
            ExecEffect.sleepCall 500 :: r.2.2)
      else
        (r.1, r.2.1 + 1,
          ExecEffect.disburseCall stake.user rewardAmount ::
            ExecEffect.sleepCall 500 :: r.2.2)

/-- `distributeAllRewards` (solana agent): snapshot the stakes, early-return
zero counts when there are none, filter the winners, run the sequential
disbursement loop, and report `{distributed, failed, total}` with
`total = winningStakes.length`. -/
def distributeAllRewards (ok : Nat → Bool) (stakes : List CredStake)
    (outcome : Nat) : DistResult × List ExecEffect :=
  if stakes = [] then (⟨0, 0, 0⟩, [])
  else
    let winners := winningStakes stakes outcome
    let r := distLoop ok winners
    (⟨r.1, r.2.1, winners.length⟩, r.2.2)

/-- Number of ledger `resolve` calls in a trace. -/
def resolveCallCount (es : List ExecEffect) : Nat :=
  (es.filter fun e =>
    match e with
    | ExecEffect.resolveCall _ => true
    | _ => false).length

/-- Number of individual disbursement calls in a trace. -/
def disburseCallCount (es : List ExecEffect) : Nat :=
  (es.filter fun e =>
    match e with
    | ExecEffect.disburseCall _ _ => true
    | _ => false).length

/-- Number of invocations of the reward-distribution routine in a trace. -/
def distributeCallCount (es : List ExecEffect) : Nat :=
  (es.filter fun e =>
    match e with
    | ExecEffect.distributeCall => true
    | _ => false).length

/-- The Executor node (graph.ts lines 350-516) as its trace of external
calls.  When the decision is `YES` or `NO` it pins the transcript and the
NFT metadata, issues one ledger `resolveMarket` call with outcome 1 for
`YES` and 0 for `NO`, and — only when that call reports success — invokes
`distributeAllRewards`; on resolve failure it logs and stops; on any other
decision it only logs that the market remains unresolved. -/
def executorNode (decision : Option String) (resolveSuccess : Bool)
    (ok : Nat → Bool) (query : Except String (List CredStake)) :
    List ExecEffect :=
  if decision = some "YES" ∨ decision = some "NO" then
    let outcome : Nat := if decision = some "YES" then 1 else 0
    [ExecEffect.pinTranscriptCall, ExecEffect.pinMetadataCall,
      ExecEffect.resolveCall outcome] ++
      (if resolveSuccess then
        ExecEffect.distributeCall ::
          (distributeAllRewards ok (getCredStakesForMarket query) outcome).2
      else [])
  else []

theorem distLoop_counts (ok : Nat → Bool) :
    ∀ l : List CredStake, (distLoop ok l).1 + (distLoop ok l).2.1 = l.length
  | [] => rfl
  | stake :: rest => by
      have ih := distLoop_counts ok rest
      unfold distLoop
      by_cases h : ok stake.user = true <;>
        simp [h, List.length_cons] <;> omega

theorem distLoop_trace (ok : Nat → Bool) :
    ∀ l : List CredStake,
      (distLoop ok l).2.2 =
        l.flatMap fun s =>
          [ExecEffect.disburseCall s.user (s.amount * 2),
            ExecEffect.sleepCall 500]
  | [] => rfl
  | stake :: rest => by
      have ih := distLoop_trace ok rest
      unfold distLoop
      by_cases h : ok stake.user = true <;> simp [h, ih]

theorem distributeAllRewards_trace (ok : Nat → Bool) (stakes : List CredStake)
    (outcome : Nat) :
    (distributeAllRewards ok stakes outcome).2 =
      (winningStakes stakes outcome).flatMap fun s =>
        [ExecEffect.disburseCall s.user (s.amount * 2),
          ExecEffect.sleepCall 500] := by
  unfold distributeAllRewards
  split
  · next h => simp [h, winningStakes]
  · simp [distLoop_trace]

/-- Claim C4: for every stake snapshot, ledger-success oracle and terminal
outcome, `distributeAllRewards` selects as winners exactly the stakes whose
direction equals `(outcome == YES)` (YES being encoded as outcome 1), and its
call trace is one disbursement of exactly `2 × stake.amount` per winner, each
followed by the fixed 500 ms inter-call delay. -/
theorem distributeAllRewards_winners_and_rewards (ok : Nat → Bool)
    (stakes : List CredStake) (outcome : Nat) :
    (∀ s : CredStake,
        s ∈ winningStakes stakes outcome ↔
          (s ∈ stakes ∧ s.direction = decide (outcome = 1))) ∧
    (distributeAllRewards ok stakes outcome).2 =
      (winningStakes stakes outcome).flatMap fun s =>
        [ExecEffect.disburseCall s.user (2 * s.amount),
          ExecEffect.sleepCall 500] := by
  constructor
  · intro s
    unfold winningStakes
    simp [List.mem_filter]
  · rw [distributeAllRewards_trace]
    simp [Nat.mul_comm]

/-- Claim C5: after every distribution run `distributed + failed = total`
holds, `total` is the number of winning stakes, and every winner receives its
disbursement call regardless of other winners' individual failures. -/
theorem distributeAllRewards_counts (ok : Nat → Bool)
    (stakes : List CredStake) (outcome : Nat) :
    ((distributeAllRewards ok stakes outcome).1.distributed +
        (distributeAllRewards ok stakes outcome).1.failed =
      (distributeAllRewards ok stakes outcome).1.total) ∧
    ((distributeAllRewards ok stakes outcome).1.total =
      (winningStakes stakes outcome).length) ∧
    (∀ s : CredStake, s ∈ winningStakes stakes outcome →
      ExecEffect.disburseCall s.user (s.amount * 2) ∈
        (distributeAllRewards ok stakes outcome).2) := by
  refine ⟨?_, ?_, ?_⟩
  · unfold distributeAllRewards
    split
    · rfl
    · simpa using distLoop_counts ok (winningStakes stakes outcome)
  · unfold distributeAllRewards
    split
    · next h => simp [h, winningStakes]
    · rfl
  · intro s hs
    rw [distributeAllRewards_trace]
    refine List.mem_flatMap.mpr ⟨s, hs, ?_⟩
    simp

/-- Witness for claim C5 at a concrete snapshot: 3 stakes (2 Yes, 1 No),
outcome YES, the first winner's ledger call failing. -/
theorem distributeAllRewards_counts_witness :
    ExecEffect.disburseCall 7 20 ∈
      (distributeAllRewards (fun u => u ≠ 7)
        [⟨7, 1, 10, true, 0, 0⟩, ⟨8, 1, 5, true, 0, 0⟩, ⟨9, 1, 4, false, 0, 0⟩]
        1).2 :=
  (distributeAllRewards_counts (fun u => u ≠ 7)
    [⟨7, 1, 10, true, 0, 0⟩, ⟨8, 1, 5, true, 0, 0⟩, ⟨9, 1, 4, false, 0, 0⟩]
    1).2.2 ⟨7, 1, 10, true, 0, 0⟩ (by decide)

/-- Claim C10: a stake-snapshot query that throws is swallowed by
`getCredStakesForMarket` into the empty list, so `distributeAllRewards`
reports zero counts and issues zero disbursement calls, and the outcome is
exactly the one produced for a market with no stakes at all. -/
theorem getCredStakes_error_swallowed (e : String) (ok : Nat → Bool)
    (outcome : Nat) :
    (getCredStakesForMarket (Except.error e) = []) ∧
    (distributeAllRewards ok (getCredStakesForMarket (Except.error e)) outcome =
      (⟨0, 0, 0⟩, [])) ∧
    (disburseCallCount
        (distributeAllRewards ok
          (getCredStakesForMarket (Except.error e)) outcome).2 = 0) ∧
    (distributeAllRewards ok (getCredStakesForMarket (Except.error e)) outcome =
      distributeAllRewards ok (getCredStakesForMarket (Except.ok [])) outcome) := by
  refine ⟨rfl, rfl, rfl, rfl⟩

/-- Claim C3: in every execution of the Executor node, a ledger resolve call
is attempted iff the decision is `YES` or `NO`; reward distribution is
invoked iff that resolve call reported success; when the resolve call fails
the trace ends at the resolve call with zero disbursement calls; and when
the decision is `UNCERTAIN` the node performs no pinning, no resolve call
and no disbursement at all. -/
theorem executorNode_effects (decision : Option String) (resolveSuccess : Bool)
    (ok : Nat → Bool) (query : Except String (List CredStake)) :
    (resolveCallCount (executorNode decision resolveSuccess ok query) =
      if decision = some "YES" ∨ decision = some "NO" then 1 else 0) ∧
    (distributeCallCount (executorNode decision resolveSuccess ok query) =
      if (decision = some "YES" ∨ decision = some "NO") ∧ resolveSuccess = true
      then 1 else 0) ∧
    ((decision = some "YES" ∨ decision = some "NO") → resolveSuccess = false →
      executorNode decision resolveSuccess ok query =
        [ExecEffect.pinTranscriptCall, ExecEffect.pinMetadataCall,
          ExecEffect.resolveCall (if decision = some "YES" then 1 else 0)]) ∧
    (decision = some "UNCERTAIN" →
      executorNode decision resolveSuccess ok query = []) := by
  refine ⟨?_, ?_, ?_, ?_⟩
  · unfold executorNode
    split
    · cases resolveSuccess <;>
        simp [resolveCallCount, distributeAllRewards_trace, List.filter_flatMap,
          Function.comp, List.sum_eq_zero_iff]
    · rfl
  · unfold executorNode
    split
    · next h =>
      cases resolveSuccess <;>
        simp [h, distributeCallCount, distributeAllRewards_trace,
          List.filter_flatMap, Function.comp, List.sum_eq_zero_iff]
    · next h => simp [h, distributeCallCount]
  · intro hterm hfail
    unfold executorNode
    simp [hterm, hfail]
  · intro hdec
    unfold executorNode
    simp [hdec]

/-- Witness for claim C3 at a concrete execution: decision `NO`, resolve
call rejected by the ledger, one pending stake. -/
theorem executorNode_effects_witness :
    executorNode (some "NO") false (fun _ => true)
        (Except.ok [⟨7, 1, 10, false, 0, 0⟩]) =
      [ExecEffect.pinTranscriptCall, ExecEffect.pinMetadataCall,
        ExecEffect.resolveCall 0] :=
  (executorNode_effects (some "NO") false (fun _ => true)
    (Except.ok [⟨7, 1, 10, false, 0, 0⟩])).2.2.1 (Or.inr rfl) rfl

/-! ## The /resolve endpoint (graph.ts lines 590-696) -/

/-- The tracked status of a market in the server's `activeMarkets` map. -/
inductive MarketStatus where
  | openM
  | researching
  | judging
  | executing
  | resolved
deriving DecidableEq, Repr

/-- Outcome of the on-chain market fetch performed when no question is
supplied in the request body. -/
inductive FetchOutcome where
  | found (tweetUrl : String)
  | notFound
  | threw (msg : String)
deriving DecidableEq, Repr

/-- The action the `/resolve` handler takes on a request. -/
inductive HandlerAction where
  | badRequest
  | fetchNotFound
  | fetchFailed
  | runPipeline
deriving DecidableEq, Repr

/-- The control flow of the `POST /resolve` handler (graph.ts lines
590-696).  `tracked` is the status currently recorded for the market in
`activeMarkets` (or `none` when untracked).  The handler rejects only a
missing `marketId` (400) and a failed on-chain fetch (404/500); in every
other case it unconditionally overwrites the tracked status with
`researching` and runs the resolution pipeline.  No branch of the source
inspects `tracked`. -/
def resolveHandler (tracked : Option MarketStatus) (marketIdGiven : Bool)
    (questionGiven : Bool) (fetch : FetchOutcome) : HandlerAction :=
  if marketIdGiven = false then HandlerAction.badRequest
  else if questionGiven then HandlerAction.runPipeline
  else
    match fetch with
    | FetchOutcome.found _ => HandlerAction.runPipeline
    | FetchOutcome.notFound => HandlerAction.fetchNotFound
    | FetchOutcome.threw _ => HandlerAction.fetchFailed

/-- Claim C2 (code bug): the `/resolve` handler's action is entirely
independent of the market's tracked status, so a second resolution trigger
for a market that is already `researching` — or even already `resolved` —
is run, not rejected or queued.  The last two conjuncts evaluate the
handler at exactly those failing inputs. -/
theorem resolveHandler_ignores_status :
    (∀ (t1 t2 : Option MarketStatus) (mid q : Bool) (f : FetchOutcome),
        resolveHandler t1 mid q f = resolveHandler t2 mid q f) ∧
    resolveHandler (some MarketStatus.researching) true true
        (FetchOutcome.found "") = HandlerAction.runPipeline ∧
    resolveHandler (some MarketStatus.resolved) true true
        (FetchOutcome.found "") = HandlerAction.runPipeline := by
  exact ⟨fun t1 t2 mid q f => rfl, rfl, rfl⟩

/-! ## Judge decision values (claim C6) -/

/-- Claim C6 counterexample: a generation output that parses but carries the
decision field `"maybe"` makes the Judge node return decision `MAYBE`, which
is none of `YES`, `NO`, `UNCERTAIN` — the unchecked
`judgment.decision?.toUpperCase()` cast lets arbitrary strings through. -/
theorem judgeNode_decision_counterexample :
    (judgeNode (initialAgentState "q" "m" "p")
        (JudgeGen.parsed (some "maybe") "r")).decision = some "MAYBE" ∧
    ¬("MAYBE" = "YES" ∨ "MAYBE" = "NO" ∨ "MAYBE" = "UNCERTAIN") := by
  constructor
  · decide
  · decide

/-- Claim C6 (amended): the Judge's decision is `UNCERTAIN` whenever the
generation step fails, its output cannot be parsed, or the parsed decision
field is missing or empty — it never defaults to `YES` or `NO` on failure —
and otherwise it is the uppercased decision field verbatim, which may fall
outside the set YES/NO/UNCERTAIN. -/
theorem judgeNode_decision_amended (s : AgentState) :
    ((judgeNode s JudgeGen.genFailure).decision = some "UNCERTAIN") ∧
    (∀ r : String,
      (judgeNode s (JudgeGen.parsed none r)).decision = some "UNCERTAIN") ∧
    (∀ r : String,
      (judgeNode s (JudgeGen.parsed (some "") r)).decision = some "UNCERTAIN") ∧
    (∀ f r : String, ¬jsToUpper f = "" →
      (judgeNode s (JudgeGen.parsed (some f) r)).decision =
        some (jsToUpper f)) := by
  refine ⟨rfl, fun r => rfl, fun r => ?_, fun f r hf => ?_⟩
  · simp [judgeNode, decisionOfField, jsToUpper]
  · simp [judgeNode, decisionOfField, hf]

/-- Witness for the amended claim C6 at concrete inputs. -/
theorem judgeNode_decision_amended_witness :
    (judgeNode (initialAgentState "q" "m" "p")
        (JudgeGen.parsed (some "yes") "r")).decision = some "YES" := by
  have h := (judgeNode_decision_amended (initialAgentState "q" "m" "p")).2.2.2
    "yes" "r" (by decide)
  rw [h]
  decide

/-! ## The Generation Client `generateContent` (graph.ts lines 106-136) -/

/-- What one fetch attempt against the generation service yields: an HTTP
429, any other failure (non-ok status, a thrown fetch, or an empty candidate
list), or a successful text. -/
inductive GenResponse where
  | rateLimited
  | failure (msg : String)
  | ok (text : String)
deriving DecidableEq, Repr

/-- Observable events of the Generation Client: outbound requests and the
sleeps it interleaves. -/
inductive GenEvent where
  | apiCall
  | sleepCall (ms : Nat)
deriving DecidableEq, Repr

/-- Whether a fetch attempt returned text. -/
def GenResponse.isOkResp : GenResponse → Bool
  | GenResponse.ok _ => true
  | _ => false

/-- The retry loop of `generateContent` (graph.ts lines 112-134), with
`responses a` the outcome of the fetch on attempt `a` and the remaining
fuel `retries - attempt`.  A 429 sleeps 10 s and continues — consuming one
loop iteration; any other failure rethrows on the last attempt and
otherwise sleeps 2 s and retries; an exhausted loop throws the terminal
`Failed to generate content` error. -/
def genAttempts (responses : Nat → GenResponse) (attempt : Nat) :
    Nat → List GenEvent × Except String String
  | 0 => ([], Except.error "Failed to generate content")
  | fuel + 1 =>
      match responses attempt with
      | GenResponse.ok t => ([GenEvent.apiCall], Except.ok t)
      | GenResponse.rateLimited =>
          let r := genAttempts responses (attempt + 1) fuel
          (GenEvent.apiCall :: GenEvent.sleepCall 10000 :: r.1, r.2)
      | GenResponse.failure msg =>
          match fuel with
          | 0 => ([GenEvent.apiCall], Except.error msg)
          | f + 1 =>
              let r := genAttempts responses (attempt + 1) (f + 1)
              (GenEvent.apiCall :: GenEvent.sleepCall 2000 :: r.1, r.2)

/-- `generateContent` (graph.ts lines 106-136): a fixed 4 s pacing sleep,
then the retry loop with `retries = 3`. -/
def generateContent (responses : Nat → GenResponse) :
    List GenEvent × Except String String :=
  let r := genAttempts responses 0 3
  (GenEvent.sleepCall 4000 :: r.1, r.2)

/-- Three consecutive rate-limited responses followed by a good one. -/
def threeRateLimitsThenOk : Nat → GenResponse :=
  fun n => if n < 3 then GenResponse.rateLimited else GenResponse.ok "recovered"

/-- Claim C7 counterexample: if 429 retries did not count against the retry
budget, a client seeing three 429s and then a good response would return
that response; the code instead lets the three 429s exhaust the budget of 3
and raises the terminal error without ever reaching the fourth attempt. -/
theorem generateContent_429_consumes_budget :
    (generateContent threeRateLimitsThenOk).2 =
      Except.error "Failed to generate content" ∧
    threeRateLimitsThenOk 3 = GenResponse.ok "recovered" := by
  exact ⟨rfl, rfl⟩

theorem genAttempts_rateLimited (responses : Nat → GenResponse)
    (attempt fuel : Nat) (h : responses attempt = GenResponse.rateLimited) :
    genAttempts responses attempt (fuel + 1) =
      (GenEvent.apiCall :: GenEvent.sleepCall 10000 ::
          (genAttempts responses (attempt + 1) fuel).1,
        (genAttempts responses (attempt + 1) fuel).2) := by
  conv_lhs => rw [genAttempts]
  rw [h]

theorem genAttempts_failure_retry (responses : Nat → GenResponse)
    (attempt fuel : Nat) (msg : String)
    (h : responses attempt = GenResponse.failure msg) :
    genAttempts responses attempt (fuel + 2) =
      (GenEvent.apiCall :: GenEvent.sleepCall 2000 ::
          (genAttempts responses (attempt + 1) (fuel + 1)).1,
        (genAttempts responses (attempt + 1) (fuel + 1)).2) := by
  conv_lhs => rw [genAttempts]
  rw [h]

theorem genAttempts_failure_last (responses : Nat → GenResponse)
    (attempt : Nat) (msg : String)
    (h : responses attempt = GenResponse.failure msg) :
    genAttempts responses attempt 1 = ([GenEvent.apiCall], Except.error msg) := by
  conv_lhs => rw [genAttempts]
  rw [h]

/-- Claim C7 (amended): the client sleeps a fixed 4 s before its first
request; on a 429 it sleeps a fixed 10 s and retries in place, with that
attempt counting against the fixed retry budget of 3; on any other transient
failure it sleeps a fixed 2 s and retries while budget remains, rethrowing
on the last attempt; and it returns text iff one of its (at most 3) attempts
yields candidates, raising a terminal error otherwise. -/
theorem generateContent_amended (responses : Nat → GenResponse) :
    ((generateContent responses).1.head? = some (GenEvent.sleepCall 4000)) ∧
    (∀ attempt fuel : Nat,
      responses attempt = GenResponse.rateLimited →
        genAttempts responses attempt (fuel + 1) =
          (GenEvent.apiCall :: GenEvent.sleepCall 10000 ::
              (genAttempts responses (attempt + 1) fuel).1,
            (genAttempts responses (attempt + 1) fuel).2)) ∧
    (∀ (attempt fuel : Nat) (msg : String),
      responses attempt = GenResponse.failure msg →
        genAttempts responses attempt (fuel + 2) =
          (GenEvent.apiCall :: GenEvent.sleepCall 2000 ::
              (genAttempts responses (attempt + 1) (fuel + 1)).1,
            (genAttempts responses (attempt + 1) (fuel + 1)).2)) ∧
    (∀ (attempt : Nat) (msg : String),
      responses attempt = GenResponse.failure msg →
        genAttempts responses attempt 1 =
          ([GenEvent.apiCall], Except.error msg)) ∧
    ((generateContent responses).2.isOk =
      ((responses 0).isOkResp || (responses 1).isOkResp ||
        (responses 2).isOkResp)) := by
  refine ⟨rfl, genAttempts_rateLimited responses,
    fun a f m => genAttempts_failure_retry responses a f m,
    genAttempts_failure_last responses, ?_⟩
  have e0 : (2 : Nat) + 1 = 3 := rfl
  rcases h0 : responses 0 with _ | m0 | t0 <;>
    rcases h1 : responses 1 with _ | m1 | t1 <;>
      rcases h2 : responses 2 with _ | m2 | t2 <;>
        simp [generateContent, genAttempts, h0, h1, h2, Except.isOk,
          Except.toBool, GenResponse.isOkResp]

/-- Witness for the amended claim C7 at a concrete response sequence: first
attempt rate-limited, second failing, third succeeding. -/
theorem generateContent_amended_witness :
    genAttempts
        (fun n =>
          if n = 0 then GenResponse.rateLimited
          else if n = 1 then GenResponse.failure "boom"
          else GenResponse.ok "text") 0 3 =
      (GenEvent.apiCall :: GenEvent.sleepCall 10000 ::
          (genAttempts
            (fun n =>
              if n = 0 then GenResponse.rateLimited
              else if n = 1 then GenResponse.failure "boom"
              else GenResponse.ok "text") 1 2).1,
        (genAttempts
          (fun n =>
            if n = 0 then GenResponse.rateLimited
            else if n = 1 then GenResponse.failure "boom"
            else GenResponse.ok "text") 1 2).2) :=
  (generateContent_amended
    (fun n =>
      if n = 0 then GenResponse.rateLimited
      else if n = 1 then GenResponse.failure "boom"
      else GenResponse.ok "text")).2.1 0 2 rfl

/-! ## Transcript pinning (ipfs.ts lines 81-112) -/

/-- The NFT.storage client as seen by `pinTranscript`: absent when the API
key is unconfigured, otherwise a `storeBlob` call that may throw. -/
inductive PinClient where
  | unconfigured
  | configured (storeBlob : String → Except String String)

/-- The deterministic fallback CID of `pinTranscript` (ipfs.ts lines
89-92): `bafkreig` followed by the first 50 hex characters of the SHA-256
of the serialized bundle.  The hash itself is the external `crypto`
library, passed in as a function of the content. -/
def createMockCid (hash : String → String) (content : String) : String :=
  "bafkreig" ++ (hash content).take 50

/-- `pinTranscript` (ipfs.ts lines 81-112) on the serialized bundle
`content`: with no client it returns the mock CID; with a client it returns
`storeBlob`'s CID, falling back to the mock CID when `storeBlob` throws.
Every path returns a CID — the function never propagates an error. -/
def pinTranscript (hash : String → String) (client : PinClient)
    (content : String) : Except String String :=
  match client with
  | PinClient.unconfigured => Except.ok (createMockCid hash content)
  | PinClient.configured storeBlob =>
      match storeBlob content with
      | Except.ok cid => Except.ok cid
      | Except.error _ => Except.ok (createMockCid hash content)

/-- Claim C8: pinning never throws — for every client state and bundle the
result is a CID; when the store is unconfigured, or its pin call throws,
that CID is the fallback `createMockCid`, a pure function of the serialized
bundle content, so two runs whose pin calls fail in any ways agree on the
same bundle. -/
theorem pinTranscript_total_and_deterministic (hash : String → String)
    (content : String) :
    (∀ client : PinClient, ∃ cid : String,
        pinTranscript hash client content = Except.ok cid) ∧
    (pinTranscript hash PinClient.unconfigured content =
      Except.ok (createMockCid hash content)) ∧
    (∀ (storeBlob : String → Except String String) (e : String),
        storeBlob content = Except.error e →
          pinTranscript hash (PinClient.configured storeBlob) content =
            Except.ok (createMockCid hash content)) ∧
    (∀ (sb1 sb2 : String → Except String String) (e1 e2 : String),
        sb1 content = Except.error e1 → sb2 content = Except.error e2 →
          pinTranscript hash (PinClient.configured sb1) content =
            pinTranscript hash (PinClient.configured sb2) content) := by
  refine ⟨?_, rfl, ?_, ?_⟩
  · intro client
    cases client with
    | unconfigured => exact ⟨_, rfl⟩
    | configured storeBlob =>
        cases h : storeBlob content with
        | ok cid => exact ⟨cid, by simp [pinTranscript, h]⟩
        | error e =>
            exact ⟨createMockCid hash content, by simp [pinTranscript, h]⟩
  · intro storeBlob e h
    simp [pinTranscript, h]
  · intro sb1 sb2 e1 e2 h1 h2
    simp [pinTranscript, h1, h2]

/-- Witness for claim C8: a store whose pin call always throws still yields
the deterministic fallback CID of the bundle content. -/
theorem pinTranscript_total_witness :
    pinTranscript (fun s => s)
        (PinClient.configured fun _ => Except.error "ipfs down") "bundle" =
      Except.ok (createMockCid (fun s => s) "bundle") :=
  (pinTranscript_total_and_deterministic (fun s => s) "bundle").2.2.1
    (fun _ => Except.error "ipfs down") "ipfs down" rfl

/-! ## Reconsideration workflow (reconsideration.ts) -/

/-- Outcome of the Analyze node's generation step: either the
generate-and-parse pipeline threw, or it yielded a parsed object whose
`facts` and `analysis` fields default to `[]` and the empty string when
absent (reconsideration.ts lines 151-155). -/
inductive AnalyzeGen where
  | genFailure
  | parsed (facts : List String) (analysis : String)
deriving DecidableEq, Repr

/-- The Evidence Analyzer node (reconsideration.ts lines 105-168): on
failure it degrades to the single fact `Unable to analyze evidence` with
reasoning `Analysis failed`; on success it passes the parsed facts and
analysis through.  Returns (factAnalysis, reasoning). -/
def analyzeEvidenceNode (g : AnalyzeGen) : List String × String :=
  match g with
  | AnalyzeGen.genFailure => (["Unable to analyze evidence"], "Analysis failed")
  | AnalyzeGen.parsed facts analysis => (facts, analysis)

/-- Outcome of the Reconsideration Judge's generation step, with optional
`recommendation`, `confidence_level` and `reasoning` fields. -/
inductive ReconJudgeGen where
  | genFailure
  | parsed (recommendationField : Option String) (confidenceField : Option Nat)
      (reasoningField : Option String)
deriving DecidableEq, Repr

/-- `parsed.recommendation?.toUpperCase() || 'UPHOLD'` (reconsideration.ts
line 217): missing or empty field falls back to `UPHOLD`, anything else is
uppercased verbatim. -/
def recommendationOfField : Option String → String
  | none => "UPHOLD"
  | some s => if jsToUpper s = "" then "UPHOLD" else jsToUpper s

/-- `parsed.confidence_level || 50` (reconsideration.ts line 237): a missing
or zero (falsy) confidence becomes 50. -/
def confidenceOfField : Option Nat → Nat
  | none => 50
  | some v => if v = 0 then 50 else v

/-- The Reconsideration Judge node (reconsideration.ts lines 174-254).  Its
returned fields depend only on its own generation outcome — the analyzed
facts enter the prompt text but no return-value branch inspects them.  On
generation or parse failure it returns `UPHOLD` with confidence 0.  Returns
(recommendation, confidenceLevel, reasoning). -/
def reconsiderationJudgeNode (factAnalysis : List String)
    (analysisReasoning : String) (g : ReconJudgeGen) : String × Nat × String :=
  match g with
  | ReconJudgeGen.genFailure => ("UPHOLD", 0, "Error in judgment process")
  | ReconJudgeGen.parsed recF confF reasonF =>
      (recommendationOfField recF, confidenceOfField confF, reasonF.getD "")

/-- The reconsideration result fields computed by `processReconsideration`
(reconsideration.ts lines 279-327) that the claims are about. -/
structure ReconsiderationResult where
  originalOutcome : String
  newOutcome : String
  confidenceChange : Int
  analysis : String
  recommendation : String
deriving DecidableEq, Repr

/-- `Math.round (x)` for the half-integer values `(c - 50) / 2` arising in
the ANNOTATE confidence delta: round half toward positive infinity, i.e.
the floor of `n / 2 + 1 / 2` for the integer `n = c - 50`. -/
def jsRoundHalfDiv2 (n : Int) : Int :=
  Int.fdiv (n + 1) 2

/-- `processReconsideration` (reconsideration.ts lines 279-327): runs
Analyze then Judge, computes the confidence delta, and sets `newOutcome` to
the flipped original outcome exactly when the recommendation is `OVERTURN`
and to `UNCHANGED` otherwise. -/
def processReconsideration (originalOutcome : String) (aGen : AnalyzeGen)
    (jGen : ReconJudgeGen) : ReconsiderationResult :=
  let a := analyzeEvidenceNode aGen
  let j := reconsiderationJudgeNode a.1 a.2 jGen
  let recommendation := j.1
  let confidenceLevel := j.2.1
  let reasoning := j.2.2
  let confidenceChange : Int :=
    if recommendation = "OVERTURN" then -(confidenceLevel : Int)
    else if recommendation = "ANNOTATE" then
      jsRoundHalfDiv2 ((confidenceLevel : Int) - 50)
    else 0
  let newOutcome :=
    if recommendation = "OVERTURN" then
      if originalOutcome = "YES" then "NO" else "YES"
    else "UNCHANGED"
  { originalOutcome := originalOutcome
    newOutcome := newOutcome
    confidenceChange := confidenceChange
    analysis := reasoning
    recommendation := recommendation }

/-- Claim C9 counterexample: with the Analyze step yielding zero facts, a
judge generation carrying the recommendation field `"escalate"` makes the
workflow return recommendation `ESCALATE` — not `UPHOLD` despite the empty
fact set, and outside the set UPHOLD/ANNOTATE/OVERTURN: nothing in the code
forces UPHOLD on an empty analysis, and the unchecked uppercase cast lets
arbitrary strings through. -/
theorem processReconsideration_counterexample :
    (processReconsideration "YES" (AnalyzeGen.parsed [] "no facts")
        (ReconJudgeGen.parsed (some "escalate") none none)).recommendation =
      "ESCALATE" ∧
    ¬("ESCALATE" = "UPHOLD" ∨ "ESCALATE" = "ANNOTATE" ∨
        "ESCALATE" = "OVERTURN") := by
  exact ⟨by decide, by decide⟩

/-- Claim C9 (amended): the recommendation defaults to `UPHOLD` exactly when
the Judge step's own generation fails, cannot be parsed, or lacks a usable
recommendation field — an empty fact set from Analyze does not by itself
force `UPHOLD`, and the judge's output is independent of the analyzed facts;
the returned `newOutcome` is the flipped original outcome exactly when the
recommendation is `OVERTURN` and `UNCHANGED` otherwise. -/
theorem processReconsideration_amended (originalOutcome : String)
    (aGen aGen2 : AnalyzeGen) (jGen : ReconJudgeGen) :
    ((processReconsideration originalOutcome aGen
        ReconJudgeGen.genFailure).recommendation = "UPHOLD") ∧
    (∀ (confF : Option Nat) (reasonF : Option String),
      (processReconsideration originalOutcome aGen
          (ReconJudgeGen.parsed none confF reasonF)).recommendation =
        "UPHOLD") ∧
    ((processReconsideration originalOutcome aGen jGen).recommendation =
      (processReconsideration originalOutcome aGen2 jGen).recommendation) ∧
    ((processReconsideration originalOutcome aGen jGen).recommendation =
        "OVERTURN" →
      (processReconsideration originalOutcome aGen jGen).newOutcome =
        (if originalOutcome = "YES" then "NO" else "YES")) ∧
    (¬(processReconsideration originalOutcome aGen jGen).recommendation =
        "OVERTURN" →
      (processReconsideration originalOutcome aGen jGen).newOutcome =
        "UNCHANGED") := by
  refine ⟨rfl, fun confF reasonF => rfl, ?_, ?_, ?_⟩
  · cases jGen <;> rfl
  · intro h
    simp [processReconsideration] at h ⊢
    simp [h]
  · intro h
    simp [processReconsideration] at h ⊢
    simp [h]

/-- Witness for the amended claim C9: an overturning judge output flips a
`YES` market to `NO` even though the Analyze step failed outright. -/
theorem processReconsideration_amended_witness :
    (processReconsideration "YES" AnalyzeGen.genFailure
        (ReconJudgeGen.parsed (some "overturn") (some 90) none)).newOutcome =
      "NO" := by
  have h := (processReconsideration_amended "YES" AnalyzeGen.genFailure
    AnalyzeGen.genFailure
    (ReconJudgeGen.parsed (some "overturn") (some 90) none)).2.2.2.1 (by decide)
  rw [h]
  decide

end Prophecy
